import Mathlib

/-!
Shallow embedding of the mock MCP JSON-RPC-over-HTTP server
(`src/unnamed/part_000`, a Node.js script built on `http.createServer`).

The embedding models:
  * parsed JSON values (`Json`), with JavaScript property access, truthiness,
    the `||` fallback operator, optional chaining and template-literal
    string coercion, as used by the dispatcher;
  * the JSON-RPC response envelope (`RpcBody`) built by
    `makeJsonRpcResult` / `makeJsonRpcError` and the HTTP response
    (`Response`) written by `sendResult` / `sendError`;
  * the `req.on('end')` dispatcher (`handleEnd` / `routeMethod`),
    instrumented with the best-effort log appends (`LogOutcome`,
    `DispatchLog`) so that noninterference of logging can be stated;
  * the `req.on('data')` body accumulation with the 1e6 size guard
    (`onData` / `receiveBody`);
  * the `GET /sse` endpoint as a transition system (`SseConn` / `sseStep`)
    whose actions are timer fires and the client-close event.
-/

namespace McpMock

/-- Parsed JSON values, the possible results of `JSON.parse`.
Numbers are modelled as integers (no claim depends on fractional values).
JavaScript `undefined` is not a JSON value; where the server can observe
`undefined` (absent property), the embedding uses `Option Json` with
`none` for `undefined`. -/
inductive Json where
  | null
  | bool (b : Bool)
  | num (n : Int)
  | str (s : String)
  | arr (elems : List Json)
  | obj (fields : List (String × Json))

/-- JavaScript property access `v.k` for the non-built-in keys the server
reads (`method`, `id`, `params`, `name`, `tool`, `arguments`, `message`):
an own property of an object, `undefined` (`none`) otherwise.  Only valid
for a non-null receiver (access on `null` throws; the dispatcher handles
that case separately).  Objects produced by `JSON.parse` have distinct
keys, so first-match lookup is exact. -/
def Json.getProp : Json → String → Option Json
  | .obj fields, key => fields.lookup key
  | _, _ => none

/-- JavaScript truthiness of a JSON value (`NaN` is not representable as
an integer and does not arise here). -/
def Json.truthy : Json → Bool
  | .null => false
  | .bool b => b
  | .num n => n != 0
  | .str s => s ≠ ""
  | .arr _ => true
  | .obj _ => true

/-- JavaScript `x || d` where `x` may be `undefined` (`none`): the value of
`x` when truthy, otherwise the default `d`. -/
def jsOr (x : Option Json) (d : Json) : Json :=
  match x with
  | some v => if v.truthy then v else d
  | none => d

/-- JavaScript optional chain `v.k1?.k2`: `undefined` when `v.k1` is
`undefined` or `null`, otherwise property access on it. -/
def Json.optGet (v : Json) (k1 k2 : String) : Option Json :=
  match v.getProp k1 with
  | none => none
  | some .null => none
  | some t => t.getProp k2

mutual
/-- JavaScript string coercion (template literal `Tool not found: <name>`):
`String(v)` for the values representable as JSON. -/
def Json.jsToString : Json → String
  | .null => "null"
  | .bool true => "true"
  | .bool false => "false"
  | .num n => toString n
  | .str s => s
  | .arr elems => String.intercalate "," (jsToStringElems elems)
  | .obj _ => "[object Object]"

/-- Element rendering of `Array.prototype.join`: `null` renders as the
empty string, every other element by string coercion. -/
def jsToStringElems : List Json → List String
  | [] => []
  | Json.null :: rest => "" :: jsToStringElems rest
  | e :: rest => e.jsToString :: jsToStringElems rest
end

/-- JSON-RPC 2.0 response envelope: `makeJsonRpcResult id result` or
`makeJsonRpcError id code message` (the `jsonrpc: '2.0'` field is constant
and left implicit). -/
inductive RpcBody where
  | result (id : Json) (res : Json)
  | error (id : Json) (code : Int) (message : String)

/-- The `id` field carried by a response envelope. -/
def RpcBody.rpcId : RpcBody → Json
  | .result id _ => id
  | .error id _ _ => id

/-- The client-visible HTTP response: status code, the `Content-Type`
header value, and the JSON-RPC body. -/
structure Response where
  statusCode : Nat
  contentType : String
  body : RpcBody

/-- Outcome of the two best-effort filesystem log appends of one dispatch:
whether the `appendFileSync` to `/tmp/mcp-mock-requests.log` (resp.
`/tmp/mcp-mock-responses.log`) succeeds.  Failures are swallowed by the
surrounding try/catch blocks. -/
structure LogOutcome where
  reqLogOk : Bool
  respLogOk : Bool

/-- Lines appended to the two log files during one dispatch, kept as
structured values: the request log line is `\x7b method, id, params \x7d`
(with `id` already defaulted to null) and the response log line is the
encoded envelope. -/
structure DispatchLog where
  requestLog : List (Option Json × Json × Option Json)
  responseLog : List RpcBody

/-- The fixed in-memory tool registry (`const tools = [...]`). -/
def tools : Json :=
  Json.arr [Json.obj [
    ("name", Json.str "echo"),
    ("description", Json.str "Echoes the provided input back as result"),
    ("parameters", Json.obj [
      ("type", Json.str "object"),
      ("properties", Json.obj [("message", Json.obj [("type", Json.str "string")])]),
      ("required", Json.arr [Json.str "message"])])]]

/-- The fixed `initialize` result object. -/
def initializeResult : Json :=
  Json.obj [
    ("protocolVersion", Json.str "2025-11-25"),
    ("capabilities", Json.obj [
      ("supportsToolCalls", Json.bool true),
      ("supportsStreams", Json.bool false)]),
    ("serverInfo", Json.obj [
      ("name", Json.str "librechat-mcp-mock"),
      ("version", Json.str "0.1.0")])]

/-- The `acceptedNoopMethods` set. -/
def acceptedNoopMethods : List String :=
  ["serverInfo", "getMetadata", "status", "ping"]

/-- Every method name the dispatcher recognizes (canonical names and
aliases); anything else reaches the final `sendError` with `-32601`. -/
def knownMethods : List String :=
  ["listTools", "tools/list", "listResources", "resources/list",
   "listPrompts", "prompts/list", "tools/call", "callTool", "ping",
   "initialize", "init", "handshake",
   "serverInfo", "getMetadata", "status"]

/-- The function `sendResult res id resultObj`: best-effort append of the
encoded body to the response log, then HTTP 200 with the result envelope. -/
def sendResult (o : LogOutcome) (id resObj : Json) : Response × List RpcBody :=
  let body := RpcBody.result id resObj
  (⟨200, "application/json", body⟩, if o.respLogOk then [body] else [])

/-- The function `sendError res id code message statusCode`: best-effort
append of the encoded body to the response log, then the given HTTP status
with the error envelope. -/
def sendError (o : LogOutcome) (id : Json) (code : Int) (message : String)
    (statusCode : Nat) : Response × List RpcBody :=
  let body := RpcBody.error id code message
  (⟨statusCode, "application/json", body⟩, if o.respLogOk then [body] else [])

/-- The dispatcher's `const id = parsed.id ?? null`: the nullish-coalescing
operator maps both an absent `id` and an explicit `null` to `null`. -/
def requestId (parsed : Json) : Json :=
  (parsed.getProp "id").getD Json.null

/-- The tools/call branch's `const params = parsed.params || \x7b\x7d`. -/
def requestParams (parsed : Json) : Json :=
  jsOr (parsed.getProp "params") (Json.obj [])

/-- The tools/call branch's
`const name = params.name || params.tool?.name || null`. -/
def toolCallName (params : Json) : Json :=
  jsOr (params.getProp "name") (jsOr (params.optGet "tool" "name") Json.null)

/-- The tools/call branch's
`const args = params.arguments || params.tool?.arguments || \x7b\x7d`. -/
def toolCallArgs (params : Json) : Json :=
  jsOr (params.getProp "arguments") (jsOr (params.optGet "tool" "arguments") (Json.obj []))

/-- Strict equality `name === 'echo'`: true exactly for the string value
`"echo"`. -/
def isEchoName : Json → Bool
  | .str s => s == "echo"
  | _ => false

/-- Lines 152-172: the `tools/call` / `callTool` branch body, given the
already-extracted `id` and defaulted `params`. -/
def toolsCallHandler (o : LogOutcome) (id params : Json) : Response × List RpcBody :=
  let name := toolCallName params
  let args := toolCallArgs params
  if name.truthy = false then
    sendError o id (-32602) "Missing tool name" 400
  else if isEchoName name then
    let message := jsOr (args.getProp "message") (Json.str "")
    sendResult o id (Json.obj [
      ("type", Json.str "tool_result"),
      ("value", Json.obj [("output", message)])])
  else
    sendError o id (-32000) ("Tool not found: " ++ name.jsToString) 404

/-- Lines 129-215 for a string-valued `method`: the chain of
strict-equality branches, in source order (`ping` is tested before
`initialize`), ending in the default `-32601` error.  A non-string
`method` fails every strict comparison and the `Set.has` test, so it is
routed directly to the default by `routeRequest`. -/
def routeMethod (o : LogOutcome) (s : String) (id : Json) (parsed : Json) :
    Response × List RpcBody :=
  if s = "listTools" ∨ s = "tools/list" then
    sendResult o id (Json.obj [("tools", tools)])
  else if s = "listResources" ∨ s = "resources/list" then
    sendResult o id (Json.obj [("resources", Json.arr [])])
  else if s = "listPrompts" ∨ s = "prompts/list" then
    sendResult o id (Json.obj [("prompts", Json.arr [])])
  else if s = "tools/call" ∨ s = "callTool" then
    toolsCallHandler o id (requestParams parsed)
  else if s = "ping" then
    sendResult o id (Json.obj [])
  else if s = "initialize" ∨ s = "init" ∨ s = "handshake" then
    sendResult o id initializeResult
  else if acceptedNoopMethods.contains s then
    sendResult o id (Json.obj [])
  else
    sendError o id (-32601) "Method not found" 404

/-- Dispatch on the extracted `method` value: only a string value can match
any of the strict string comparisons or the noop set. -/
def routeRequest (o : LogOutcome) (method : Option Json) (id : Json) (parsed : Json) :
    Response × List RpcBody :=
  match method with
  | some (Json.str s) => routeMethod o s id parsed
  | _ => sendError o id (-32601) "Method not found" 404

/-- The whole `req.on('end')` handler applied to an already-parsed body.
When the body parses to JSON `null`, line 107 (`parsed.method`) throws a
TypeError before any logging or response: no JSON-RPC response is produced
(`none`) and both logs stay empty.  Otherwise the request log line
`\x7b method, id, params \x7d` is appended best-effort and exactly one
response is sent. -/
def handleEnd (o : LogOutcome) (parsed : Json) : Option Response × DispatchLog :=
  match parsed with
  | .null => (none, ⟨[], []⟩)
  | p =>
    let method := p.getProp "method"
    let id := requestId p
    let reqLog := if o.reqLogOk then [(method, id, p.getProp "params")] else []
    let r := routeRequest o method id p
    (some r.1, ⟨reqLog, r.2⟩)

/-- The `req.on('end')` handler from the outcome of `JSON.parse`: a parse
failure (`none`) yields the `-32700` parse error with `id: null` and HTTP
400 written directly (bypassing `sendError`, hence no response-log line). -/
def handleParsed (o : LogOutcome) : Option Json → Option Response × DispatchLog
  | none =>
    (some ⟨400, "application/json", RpcBody.error Json.null (-32700) "Parse error"⟩,
     ⟨[], []⟩)
  | some parsed => handleEnd o parsed

/-- The client-visible response of one dispatch (the log outcome is
irrelevant to it; see the noninterference theorem). -/
def dispatch (parsed : Json) : Option Response :=
  (handleEnd ⟨true, true⟩ parsed).1

/-- State of the `req.on('data')` accumulation: the `body` string so far
and whether `req.socket.destroy()` has been called. -/
def onData (st : String × Bool) (chunk : String) : String × Bool :=
  if st.2 then st
  else
    let b := st.1 ++ chunk
    (b, decide (b.length > 1000000))

/-- Accumulate a request's chunks; after `destroy()` no further data
events are delivered.  Returns the final body and the destroyed flag. -/
def receiveBody (chunks : List String) : String × Bool :=
  chunks.foldl onData ("", false)

/-- A whole POST request: stream the chunks in; if the connection was
destroyed by the size guard the `end` event never fires and no response is
produced; otherwise run the end handler on the `JSON.parse` outcome
(`parse` abstracts `JSON.parse`). -/
def handlePost (o : LogOutcome) (chunks : List String) (parse : String → Option Json) :
    Option Response × DispatchLog :=
  let st := receiveBody chunks
  if st.2 then (none, ⟨[], []⟩)
  else handleParsed o (parse st.1)

/-- The `setInterval` period of the `GET /sse` keep-alive, in milliseconds. -/
def sseIntervalMs : Nat := 15000

/-- The initial SSE frame written on connect:
`event: message` with data `\x7b"status":"ok"\x7d`. -/
def sseMessageWrite : String := "event: message\ndata: \x7b\"status\":\"ok\"\x7d\n\n"

/-- The keep-alive SSE frame written on each timer fire:
`event: ping` with data `\x7b\x7d`. -/
def ssePingWrite : String := "event: ping\ndata: \x7b\x7d\n\n"

/-- State of one `GET /sse` connection: whether the `setInterval` timer is
still registered, and everything written to the response stream so far. -/
structure SseConn where
  timerActive : Bool
  writes : List String

/-- Observable events in the life of an SSE connection: the interval timer
fires (every `sseIntervalMs` ms), or the client closes the connection
(the `req.on('close')` handler runs `clearInterval`). -/
inductive SseAction where
  | timerFire
  | clientClose

/-- Connection setup of the `GET /sse` branch: write the status frame and
register the interval timer. -/
def sseConnect : SseConn := ⟨true, [sseMessageWrite]⟩

/-- One step of an SSE connection.  A timer fire writes a ping frame only
while the timer is registered; the close handler cancels the timer and
writes nothing. -/
def sseStep (st : SseConn) : SseAction → SseConn
  | .timerFire => if st.timerActive then ⟨st.timerActive, st.writes ++ [ssePingWrite]⟩ else st
  | .clientClose => ⟨false, st.writes⟩

/-- The SSE connection state after a sequence of events. -/
def sseRun (acts : List SseAction) : SseConn := acts.foldl sseStep sseConnect

/-! ### Helper lemmas about the dispatcher -/

theorem sendResult_fst (o : LogOutcome) (id resObj : Json) :
    (sendResult o id resObj).1 = ⟨200, "application/json", RpcBody.result id resObj⟩ := rfl

theorem sendError_fst (o : LogOutcome) (id : Json) (code : Int) (message : String) (sc : Nat) :
    (sendError o id code message sc).1 = ⟨sc, "application/json", RpcBody.error id code message⟩ :=
  rfl

theorem toolsCallHandler_fst_eq (o₁ o₂ : LogOutcome) (id params : Json) :
    (toolsCallHandler o₁ id params).1 = (toolsCallHandler o₂ id params).1 := by
  dsimp only [toolsCallHandler]
  split_ifs <;> rfl

theorem routeMethod_fst_eq (o₁ o₂ : LogOutcome) (s : String) (id p : Json) :
    (routeMethod o₁ s id p).1 = (routeMethod o₂ s id p).1 := by
  dsimp only [routeMethod]
  split_ifs <;> first | rfl | exact toolsCallHandler_fst_eq o₁ o₂ id (requestParams p)

theorem routeRequest_fst_eq (o₁ o₂ : LogOutcome) (m : Option Json) (id p : Json) :
    (routeRequest o₁ m id p).1 = (routeRequest o₂ m id p).1 := by
  cases m with
  | none => rfl
  | some j => cases j <;> first | rfl | exact routeMethod_fst_eq o₁ o₂ _ id p

theorem handleParsed_fst_eq (o₁ o₂ : LogOutcome) (p : Option Json) :
    (handleParsed o₁ p).1 = (handleParsed o₂ p).1 := by
  cases p with
  | none => rfl
  | some parsed =>
    cases parsed <;>
      simp only [handleParsed, handleEnd] <;>
      exact congrArg some (routeRequest_fst_eq o₁ o₂ _ _ _)

theorem toolsCallHandler_fst_rpcId (o : LogOutcome) (id params : Json) :
    ((toolsCallHandler o id params).1).body.rpcId = id := by
  dsimp only [toolsCallHandler]
  split_ifs <;> rfl

theorem routeMethod_fst_rpcId (o : LogOutcome) (s : String) (id p : Json) :
    ((routeMethod o s id p).1).body.rpcId = id := by
  dsimp only [routeMethod]
  split_ifs <;> first | rfl | exact toolsCallHandler_fst_rpcId o id (requestParams p)

theorem routeRequest_fst_rpcId (o : LogOutcome) (m : Option Json) (id p : Json) :
    ((routeRequest o m id p).1).body.rpcId = id := by
  cases m with
  | none => rfl
  | some j => cases j <;> first | rfl | exact routeMethod_fst_rpcId o _ id p

theorem dispatch_toolsCall (parsed : Json) (hne : parsed ≠ Json.null)
    (hm : parsed.getProp "method" = some (Json.str "tools/call") ∨
          parsed.getProp "method" = some (Json.str "callTool")) :
    dispatch parsed =
      some (toolsCallHandler ⟨true, true⟩ (requestId parsed) (requestParams parsed)).1 := by
  cases parsed with
  | null => exact absurd rfl hne
  | obj fields =>
    rcases hm with hm | hm <;>
      (simp only [dispatch, handleEnd]; rw [hm]) <;> rfl
  | bool b => rcases hm with hm | hm <;> exact absurd hm (by simp [Json.getProp])
  | num n => rcases hm with hm | hm <;> exact absurd hm (by simp [Json.getProp])
  | str s => rcases hm with hm | hm <;> exact absurd hm (by simp [Json.getProp])
  | arr xs => rcases hm with hm | hm <;> exact absurd hm (by simp [Json.getProp])

theorem routeMethod_unknown (o : LogOutcome) (s : String) (hs : s ∉ knownMethods)
    (id p : Json) :
    routeMethod o s id p = sendError o id (-32601) "Method not found" 404 := by
  simp only [knownMethods, List.mem_cons, List.not_mem_nil, or_false, not_or] at hs
  obtain ⟨h1, h2, h3, h4, h5, h6, h7, h8, h9, h10, h11, h12, h13, h14, h15⟩ := hs
  simp [routeMethod, h1, h2, h3, h4, h5, h6, h7, h8, h9, h10, h11, h12, h13, h14, h15,
    acceptedNoopMethods, List.contains]

theorem routeRequest_unknown (o : LogOutcome) (m : Option Json) (id p : Json)
    (h : ∀ s ∈ knownMethods, m ≠ some (Json.str s)) :
    (routeRequest o m id p).1 =
      ⟨404, "application/json", RpcBody.error id (-32601) "Method not found"⟩ := by
  cases m with
  | none => rfl
  | some j =>
    cases j with
    | null => rfl
    | bool b => rfl
    | num n => rfl
    | arr xs => rfl
    | obj fs => rfl
    | str s =>
      by_cases hs : s ∈ knownMethods
      · exact absurd rfl (h s hs)
      · show (routeMethod o s id p).1 = _
        rw [routeMethod_unknown o s hs]
        rfl

theorem isEchoName_truthy (v : Json) (h : isEchoName v = true) : v.truthy = true := by
  cases v with
  | str s =>
    simp only [isEchoName, beq_iff_eq] at h
    subst h
    decide
  | null => simp [isEchoName] at h
  | bool b => simp [isEchoName] at h
  | num n => simp [isEchoName] at h
  | arr xs => simp [isEchoName] at h
  | obj fs => simp [isEchoName] at h

/-! ### Helper lemmas about body accumulation and the SSE stream -/

theorem foldl_onData_destroyed (chunks : List String) (st : String × Bool) (h : st.2 = true) :
    chunks.foldl onData st = st := by
  induction chunks generalizing st with
  | nil => rfl
  | cons c cs ih =>
    rw [List.foldl_cons, show onData st c = st from by simp [onData, h]]
    exact ih st h

theorem foldl_onData_length (chunks : List String) (st : String × Bool)
    (h : (chunks.foldl onData st).2 = false) :
    (chunks.foldl onData st).1.length = st.1.length + (chunks.map String.length).sum ∧
    (chunks ≠ [] → (chunks.foldl onData st).1.length ≤ 1000000) := by
  induction chunks generalizing st with
  | nil => exact ⟨by simp, fun hne => absurd rfl hne⟩
  | cons c cs ih =>
    rw [List.foldl_cons] at h ⊢
    by_cases hd : st.2 = true
    · rw [show onData st c = st from by simp [onData, hd],
        foldl_onData_destroyed cs st hd] at h
      rw [h] at hd
      exact absurd hd (by simp)
    · have hd' : st.2 = false := by simpa using hd
      have hoc : onData st c = (st.1 ++ c, decide ((st.1 ++ c).length > 1000000)) := by
        simp [onData, hd']
      rw [hoc] at h ⊢
      by_cases hbig : (st.1 ++ c).length > 1000000
      · rw [show (decide ((st.1 ++ c).length > 1000000)) = true from by simpa using hbig,
          foldl_onData_destroyed cs _ rfl] at h
        simp at h
      · have hb : (decide ((st.1 ++ c).length > 1000000)) = false := by simpa using hbig
        rw [hb] at h ⊢
        obtain ⟨hlen, hbound⟩ := ih (st.1 ++ c, false) h
        constructor
        · rw [hlen]
          simp [String.length_append]
          ring
        · intro _
          cases cs with
          | nil => simpa using Nat.le_of_not_lt hbig
          | cons d ds => exact hbound (by simp)

theorem sseStep_shape (st : SseConn) (a : SseAction)
    (h : ∃ n, st.writes = sseMessageWrite :: List.replicate n ssePingWrite) :
    ∃ n, (sseStep st a).writes = sseMessageWrite :: List.replicate n ssePingWrite := by
  obtain ⟨n, hn⟩ := h
  cases a with
  | clientClose => exact ⟨n, hn⟩
  | timerFire =>
    by_cases ht : st.timerActive
    · exact ⟨n + 1, by simp [sseStep, ht, hn, List.replicate_succ']⟩
    · exact ⟨n, by simp [sseStep, ht, hn]⟩

theorem sseRun_shape (acts : List SseAction) :
    ∃ n, (sseRun acts).writes = sseMessageWrite :: List.replicate n ssePingWrite := by
  suffices hgen : ∀ st, (∃ n, st.writes = sseMessageWrite :: List.replicate n ssePingWrite) →
      ∃ n, (acts.foldl sseStep st).writes = sseMessageWrite :: List.replicate n ssePingWrite by
    exact hgen sseConnect ⟨0, rfl⟩
  induction acts with
  | nil => exact fun st hst => hst
  | cons a as ih => exact fun st hst => ih (sseStep st a) (sseStep_shape st a hst)

theorem sseStep_inactive (st : SseConn) (h : st.timerActive = false) (a : SseAction) :
    sseStep st a = st := by
  cases a with
  | timerFire => simp [sseStep, h]
  | clientClose =>
    cases st with
    | mk t w =>
      simp only [sseStep] at h ⊢
      rw [h]

theorem foldl_sseStep_inactive (acts : List SseAction) (st : SseConn)
    (h : st.timerActive = false) :
    acts.foldl sseStep st = st := by
  induction acts generalizing st with
  | nil => rfl
  | cons a as ih =>
    rw [List.foldl_cons, sseStep_inactive st h a]
    exact ih st h

/-! ### The claims -/

/-- Claim C1: for every JSON body whose `method` is `tools/call` or
`callTool`, the dispatcher extracts the tool name from `params.name`
(falling back to `params.tool.name`) and the arguments from
`params.arguments` (falling back to `params.tool.arguments`, defaulting to
the empty object); a missing (falsy) name yields error `-32602`
"Missing tool name" with HTTP 400; the name `echo` yields the success
result with `output` set to `arguments.message` or the empty string; any
other name yields error `-32000` "Tool not found: <name>" with HTTP 404. -/
theorem toolsCall_dispatch_spec (parsed : Json) (hne : parsed ≠ Json.null)
    (hm : parsed.getProp "method" = some (Json.str "tools/call") ∨
          parsed.getProp "method" = some (Json.str "callTool")) :
    ((toolCallName (requestParams parsed)).truthy = false →
       dispatch parsed = some ⟨400, "application/json",
         RpcBody.error (requestId parsed) (-32602) "Missing tool name"⟩) ∧
    (isEchoName (toolCallName (requestParams parsed)) = true →
       dispatch parsed = some ⟨200, "application/json",
         RpcBody.result (requestId parsed) (Json.obj [
           ("type", Json.str "tool_result"),
           ("value", Json.obj [("output",
             jsOr ((toolCallArgs (requestParams parsed)).getProp "message") (Json.str ""))])])⟩) ∧
    ((toolCallName (requestParams parsed)).truthy = true →
     isEchoName (toolCallName (requestParams parsed)) = false →
       dispatch parsed = some ⟨404, "application/json",
         RpcBody.error (requestId parsed) (-32000)
           ("Tool not found: " ++ (toolCallName (requestParams parsed)).jsToString)⟩) := by
  rw [dispatch_toolsCall parsed hne hm]
  refine ⟨?_, ?_, ?_⟩
  · intro h
    simp [toolsCallHandler, h, sendError]
  · intro h
    have ht := isEchoName_truthy _ h
    simp [toolsCallHandler, ht, h, sendResult]
  · intro ht he
    simp [toolsCallHandler, ht, he, sendError]

/-- Witness for C1: the sample `tools/call` request with tool `echo` and
message `hi` produces the documented success result with id 2. -/
theorem toolsCall_dispatch_spec_witness :
    dispatch (Json.obj [("method", Json.str "tools/call"), ("id", Json.num 2),
      ("params", Json.obj [("name", Json.str "echo"),
        ("arguments", Json.obj [("message", Json.str "hi")])])]) =
    some ⟨200, "application/json", RpcBody.result (Json.num 2) (Json.obj [
      ("type", Json.str "tool_result"),
      ("value", Json.obj [("output", Json.str "hi")])])⟩ :=
  (toolsCall_dispatch_spec
    (Json.obj [("method", Json.str "tools/call"), ("id", Json.num 2),
      ("params", Json.obj [("name", Json.str "echo"),
        ("arguments", Json.obj [("message", Json.str "hi")])])])
    (fun h => Json.noConfusion h) (Or.inl rfl)).2.1 rfl

/-- Claim C2: whenever the dispatcher produces a response envelope for a
JSON-parseable body, the envelope's `id` is exactly the request's `id`
after `?? null`, so null, numeric and string ids — including falsy ones
such as 0 and the empty string — are echoed unchanged, and an absent `id`
becomes `null`. -/
theorem response_id_echoes_request_id (parsed : Json) (resp : Response)
    (h : dispatch parsed = some resp) : resp.body.rpcId = requestId parsed := by
  cases parsed with
  | null => simp [dispatch, handleEnd] at h
  | bool b =>
    simp only [dispatch, handleEnd, Option.some.injEq] at h
    exact h ▸ routeRequest_fst_rpcId _ _ _ _
  | num n =>
    simp only [dispatch, handleEnd, Option.some.injEq] at h
    exact h ▸ routeRequest_fst_rpcId _ _ _ _
  | str s =>
    simp only [dispatch, handleEnd, Option.some.injEq] at h
    exact h ▸ routeRequest_fst_rpcId _ _ _ _
  | arr xs =>
    simp only [dispatch, handleEnd, Option.some.injEq] at h
    exact h ▸ routeRequest_fst_rpcId _ _ _ _
  | obj fields =>
    simp only [dispatch, handleEnd, Option.some.injEq] at h
    exact h ▸ routeRequest_fst_rpcId _ _ _ _

/-- Witness for C2: a `ping` request with the falsy id 0 is answered with
an envelope carrying id 0. -/
theorem response_id_echoes_request_id_witness :
    (Response.mk 200 "application/json"
        (RpcBody.result (Json.num 0) (Json.obj []))).body.rpcId =
      requestId (Json.obj [("method", Json.str "ping"), ("id", Json.num 0)]) :=
  response_id_echoes_request_id
    (Json.obj [("method", Json.str "ping"), ("id", Json.num 0)])
    (Response.mk 200 "application/json" (RpcBody.result (Json.num 0) (Json.obj []))) rfl

/-- Claim C3: a POST whose body streams in under the size cutoff but fails
to parse as JSON is answered with error `-32700` "Parse error", id `null`,
HTTP status 400. -/
theorem parse_error_response (o : LogOutcome) (chunks : List String)
    (parse : String → Option Json)
    (hsize : (receiveBody chunks).2 = false)
    (hparse : parse (receiveBody chunks).1 = none) :
    (handlePost o chunks parse).1 =
      some ⟨400, "application/json", RpcBody.error Json.null (-32700) "Parse error"⟩ := by
  simp [handlePost, hsize, hparse, handleParsed]

/-- Witness for C3: a single chunk that the parser rejects yields the
parse-error response. -/
theorem parse_error_response_witness :
    (handlePost ⟨true, true⟩ ["not json"] (fun _ => none)).1 =
      some ⟨400, "application/json", RpcBody.error Json.null (-32700) "Parse error"⟩ :=
  parse_error_response ⟨true, true⟩ ["not json"] (fun _ => none) rfl rfl

/-- Claim C4: once the accumulated body exceeds 1,000,000 while streaming
in, the connection is destroyed and the request produces no JSON-RPC
response at all, whatever the log outcomes and however the remaining body
would have parsed. -/
theorem oversized_body_destroys (chunks : List String)
    (h : 1000000 < (chunks.map String.length).sum) :
    (receiveBody chunks).2 = true ∧
    ∀ (o : LogOutcome) (parse : String → Option Json),
      (handlePost o chunks parse).1 = none := by
  have hdes : (receiveBody chunks).2 = true := by
    by_contra hc
    have hc' : (chunks.foldl onData ("", false)).2 = false := by
      simpa [receiveBody] using hc
    obtain ⟨hlen, hbound⟩ := foldl_onData_length chunks ("", false) hc'
    have hne : chunks ≠ [] := by
      intro he
      subst he
      simp at h
    have hle := hbound hne
    rw [hlen] at hle
    simp at hle
    omega
  exact ⟨hdes, fun o parse => by simp [handlePost, hdes]⟩

/-- Witness for C4: a single chunk of 1,000,001 characters destroys the
connection and suppresses the response. -/
theorem oversized_body_destroys_witness :
    (receiveBody [String.mk (List.replicate 1000001 'a')]).2 = true ∧
    (handlePost ⟨true, true⟩ [String.mk (List.replicate 1000001 'a')] (fun _ => none)).1 =
      none :=
  ⟨(oversized_body_destroys [String.mk (List.replicate 1000001 'a')]
      (by
        simp only [List.map_cons, List.map_nil, List.sum_cons, List.sum_nil, Nat.add_zero,
          String.length_mk, List.length_replicate]
        decide)).1,
   (oversized_body_destroys [String.mk (List.replicate 1000001 'a')]
      (by
        simp only [List.map_cons, List.map_nil, List.sum_cons, List.sum_nil, Nat.add_zero,
          String.length_mk, List.length_replicate]
        decide)).2
     ⟨true, true⟩ (fun _ => none)⟩

/-- Claim C5: a JSON-parseable body whose `method` value matches none of
the known method names and aliases is answered with error `-32601`
"Method not found" and HTTP 404. -/
theorem unknown_method_not_found (parsed : Json) (hne : parsed ≠ Json.null)
    (h : ∀ s ∈ knownMethods, parsed.getProp "method" ≠ some (Json.str s)) :
    dispatch parsed = some ⟨404, "application/json",
      RpcBody.error (requestId parsed) (-32601) "Method not found"⟩ := by
  cases parsed with
  | null => exact absurd rfl hne
  | bool b =>
    simp only [dispatch, handleEnd]
    exact congrArg some (routeRequest_unknown _ _ _ _ h)
  | num n =>
    simp only [dispatch, handleEnd]
    exact congrArg some (routeRequest_unknown _ _ _ _ h)
  | str s =>
    simp only [dispatch, handleEnd]
    exact congrArg some (routeRequest_unknown _ _ _ _ h)
  | arr xs =>
    simp only [dispatch, handleEnd]
    exact congrArg some (routeRequest_unknown _ _ _ _ h)
  | obj fields =>
    simp only [dispatch, handleEnd]
    exact congrArg some (routeRequest_unknown _ _ _ _ h)

/-- Witness for C5: the spec's sample `unknown-thing` request with id 5
is answered with `-32601` and the id echoed. -/
theorem unknown_method_not_found_witness :
    dispatch (Json.obj [("method", Json.str "unknown-thing"), ("id", Json.num 5)]) =
      some ⟨404, "application/json", RpcBody.error (Json.num 5) (-32601) "Method not found"⟩ :=
  unknown_method_not_found
    (Json.obj [("method", Json.str "unknown-thing"), ("id", Json.num 5)])
    (fun h => Json.noConfusion h)
    (by
      intro s hs heq
      have h1 := Json.str.inj (Option.some.inj heq)
      subst h1
      exact absurd hs (by decide))

/-- Claim C6 counterexample: the dispatcher is not total over all
JSON-parseable bodies.  For the body `null` (which `JSON.parse` accepts),
line 107 reads `parsed.method` on `null`, which throws an uncaught
TypeError, so no JSON-RPC envelope — success or error — is produced. -/
theorem dispatch_null_no_response :
    dispatch Json.null = none ∧ ∀ r : Response, dispatch Json.null ≠ some r :=
  ⟨rfl, fun r h => by simp [dispatch, handleEnd] at h⟩

/-- Claim C6 (amended): for every JSON-parseable body other than the JSON
value `null`, the dispatcher produces exactly one JSON-RPC response
envelope without throwing. -/
theorem dispatch_total_except_null (parsed : Json) (h : parsed ≠ Json.null) :
    ∃ r : Response, dispatch parsed = some r := by
  cases parsed with
  | null => exact absurd rfl h
  | bool b => exact ⟨_, rfl⟩
  | num n => exact ⟨_, rfl⟩
  | str s => exact ⟨_, rfl⟩
  | arr xs => exact ⟨_, rfl⟩
  | obj fields => exact ⟨_, rfl⟩

/-- Witness for C6 (amended): the empty JSON object gets a response. -/
theorem dispatch_total_except_null_witness :
    Json.obj [] ≠ Json.null ∧ ∃ r : Response, dispatch (Json.obj []) = some r :=
  ⟨fun h => Json.noConfusion h,
   dispatch_total_except_null (Json.obj []) (fun h => Json.noConfusion h)⟩

/-- Claim C7: over any sequence of timer fires and a client close, the SSE
connection writes the `message` frame carrying the ok status first and
exactly once, every later write is the `ping` keep-alive frame (emitted on
each fire of the 15000 ms interval timer), and once the client close has
been processed no further write ever occurs. -/
theorem sse_stream_spec (acts : List SseAction) :
    sseIntervalMs = 15000 ∧
    (sseRun acts).writes.head? = some sseMessageWrite ∧
    (sseRun acts).writes.count sseMessageWrite = 1 ∧
    (∀ w ∈ (sseRun acts).writes.tail, w = ssePingWrite) ∧
    (∀ pre post, acts = pre ++ SseAction.clientClose :: post →
      (sseRun acts).writes = (sseRun (pre ++ [SseAction.clientClose])).writes) := by
  obtain ⟨n, hn⟩ := sseRun_shape acts
  refine ⟨rfl, ?_, ?_, ?_, ?_⟩
  · rw [hn]
    rfl
  · rw [hn]
    have hne : ssePingWrite ≠ sseMessageWrite := by decide
    simp [List.count_cons, List.count_replicate, hne]
  · rw [hn]
    intro w hw
    exact List.eq_of_mem_replicate hw
  · intro pre post hpre
    subst hpre
    have hclosed :
        ((pre ++ [SseAction.clientClose]).foldl sseStep sseConnect).timerActive = false := by
      rw [List.foldl_append]
      rfl
    have hstate : sseRun (pre ++ SseAction.clientClose :: post) =
        sseRun (pre ++ [SseAction.clientClose]) := by
      show (pre ++ SseAction.clientClose :: post).foldl sseStep sseConnect = _
      rw [show pre ++ SseAction.clientClose :: post =
            (pre ++ [SseAction.clientClose]) ++ post from by simp]
      rw [List.foldl_append]
      exact foldl_sseStep_inactive post _ hclosed
    rw [hstate]

/-- Witness for C7: a timer fire after the close writes nothing, and the
first write of the trace is the status message frame. -/
theorem sse_stream_spec_witness :
    (sseRun [SseAction.timerFire, SseAction.clientClose, SseAction.timerFire]).writes =
      (sseRun [SseAction.timerFire, SseAction.clientClose]).writes ∧
    (sseRun [SseAction.timerFire, SseAction.clientClose, SseAction.timerFire]).writes.head? =
      some sseMessageWrite :=
  ⟨(sse_stream_spec [SseAction.timerFire, SseAction.clientClose, SseAction.timerFire]).2.2.2.2
      [SseAction.timerFire] [SseAction.timerFire] rfl,
   (sse_stream_spec [SseAction.timerFire, SseAction.clientClose, SseAction.timerFire]).2.1⟩

/-- Claim C8: the client-visible response of a dispatched request — HTTP
status, header and JSON-RPC body — is the same whichever of the
best-effort log appends succeed or fail. -/
theorem logging_noninterference (o₁ o₂ : LogOutcome) (chunks : List String)
    (parse : String → Option Json) :
    (handlePost o₁ chunks parse).1 = (handlePost o₂ chunks parse).1 := by
  dsimp only [handlePost]
  by_cases hd : (receiveBody chunks).2
  · simp [hd]
  · simp only [hd, if_false, Bool.false_eq_true]
    exact handleParsed_fst_eq o₁ o₂ _

/-- Witness for C8: a request dispatched with both logs succeeding and
with both logs failing gets the same response. -/
theorem logging_noninterference_witness :
    (handlePost ⟨true, true⟩ [] (fun _ => none)).1 =
      (handlePost ⟨false, false⟩ [] (fun _ => none)).1 :=
  logging_noninterference ⟨true, true⟩ ⟨false, false⟩ [] (fun _ => none)

/-- Claim C9: in a `tools/call` / `callTool` request whose `params.name`
is present but falsy (empty string, 0 or false) while the
`params.tool?.name` fallback is absent or falsy too, the extracted name is
the falsy `null`, so the dispatcher answers `-32602` "Missing tool name"
with HTTP 400 instead of looking the falsy value up as a tool. -/
theorem falsy_tool_name_missing (parsed : Json) (hne : parsed ≠ Json.null)
    (hm : parsed.getProp "method" = some (Json.str "tools/call") ∨
          parsed.getProp "method" = some (Json.str "callTool")) (v : Json)
    (hv : (requestParams parsed).getProp "name" = some v)
    (hfv : v.truthy = false)
    (hft : ∀ w, (requestParams parsed).optGet "tool" "name" = some w → w.truthy = false) :
    dispatch parsed = some ⟨400, "application/json",
      RpcBody.error (requestId parsed) (-32602) "Missing tool name"⟩ := by
  have hname : (toolCallName (requestParams parsed)).truthy = false := by
    unfold toolCallName
    rw [hv]
    cases hopt : (requestParams parsed).optGet "tool" "name" with
    | none =>
      simp only [jsOr]
      rw [hfv]
      rfl
    | some w =>
      simp only [jsOr]
      rw [hfv, hft w hopt]
      rfl
  rw [dispatch_toolsCall parsed hne hm]
  simp [toolsCallHandler, hname, sendError]

/-- Witness for C9: a `tools/call` with the present but falsy name `""`
and no tool fallback is rejected as missing. -/
theorem falsy_tool_name_missing_witness :
    dispatch (Json.obj [("method", Json.str "tools/call"), ("id", Json.num 7),
      ("params", Json.obj [("name", Json.str "")])]) =
      some ⟨400, "application/json",
        RpcBody.error (Json.num 7) (-32602) "Missing tool name"⟩ :=
  falsy_tool_name_missing
    (Json.obj [("method", Json.str "tools/call"), ("id", Json.num 7),
      ("params", Json.obj [("name", Json.str "")])])
    (fun h => Json.noConfusion h) (Or.inl rfl) (Json.str "") rfl rfl
    (fun _ hw => Option.noConfusion hw)

/-- Claim C10: a body that parses to a number, string, boolean or array is
not a parse error: property access on the primitive or array reads
`method` (and `id`) as absent, so the dispatcher answers `-32601`
"Method not found" with HTTP 404 and id `null`. -/
theorem nonobject_body_method_not_found (parsed : Json)
    (h : (∃ n, parsed = Json.num n) ∨ (∃ s, parsed = Json.str s) ∨
         (∃ b, parsed = Json.bool b) ∨ (∃ xs, parsed = Json.arr xs)) :
    dispatch parsed = some ⟨404, "application/json",
      RpcBody.error Json.null (-32601) "Method not found"⟩ := by
  rcases h with ⟨n, rfl⟩ | ⟨s, rfl⟩ | ⟨b, rfl⟩ | ⟨xs, rfl⟩ <;> rfl

/-- Witness for C10: the body `5` gets the method-not-found error with
null id. -/
theorem nonobject_body_method_not_found_witness :
    dispatch (Json.num 5) = some ⟨404, "application/json",
      RpcBody.error Json.null (-32601) "Method not found"⟩ :=
  nonobject_body_method_not_found (Json.num 5) (Or.inl ⟨5, rfl⟩)

end McpMock
